import Mathlib

/-!
Shallow embedding of the clipboard QR tool (main.py).

The program is orchestration glue over external libraries; those libraries
are modelled as explicit function parameters:
  - ImageGrab.grabclipboard  : an Except value (it may raise) yielding
    nothing, an image, or a list of file paths;
  - Image.open               : a function from a path to Except String Image;
  - pyzbar.decode            : a function from an image to Except String
    (List ZbarSymbol), each symbol carrying raw payload bytes;
  - bytes.decode utf8        : a function from a byte list to Option String,
    none meaning a UnicodeDecodeError is raised;
  - the qrcode library       : a function from text to the produced image;
  - win32clipboard calls     : success flags, a raising call propagates a
    Python exception;
  - pbcopy                   : a subprocess whose communicate call returns
    regardless of the exit status of the utility.
Printed lines are modelled as a list of message tags, one tag per print
site in the source. Exceptions are modelled with Except; a function that
catches exceptions is total and returns the caught-path value.
-/

namespace ClipQR

/-- Abstract PIL image handle; the pixel contents never influence the
control flow of main.py, so an image is identified by an opaque number. -/
structure Image where
  id : Nat
deriving DecidableEq

/-- A symbol detected by pyzbar.decode: a symbology tag (obj.type) and the
raw payload bytes (obj.data). -/
structure ZbarSymbol where
  type : String
  data : List Nat
deriving DecidableEq

/-- An entry of the results list built by decode_qrcode:
the dict with keys type and data, where data is decoded UTF-8 text. -/
structure DecodedSymbol where
  type : String
  data : String
deriving DecidableEq

/-- Lines printed to standard output, one tag per print site of main.py. -/
inductive Msg where
  | clipboardError
  | noQrFound
  | decodeError
  | echoText (s : String)
  | asciiQr
  | qrSuccess
  | qrFail
  | noImageHint
  | usageHelp
  | payload (s : String)
  | copiedConfirm (n : Nat)
deriving DecidableEq

/-- What ImageGrab.grabclipboard returned when it did not raise. -/
inductive GrabResult where
  | empty
  | image (img : Image)
  | fileList (paths : List String)
deriving DecidableEq

/-- The value of platform.system(), reduced to the three branches that
send_to_clipboard distinguishes. -/
inductive OS where
  | windows
  | darwin
  | other
deriving DecidableEq

/-- Success flags for the three win32clipboard calls that main.py makes;
false means the call raises. -/
structure WinApi where
  openOk : Bool
  emptyOk : Bool
  setOk : Bool
deriving DecidableEq

/-- Clipboard-affecting calls performed by send_to_clipboard, in order. -/
inductive ClipEvent where
  | openClipboard
  | emptyClipboard
  | setClipboardData
  | closeClipboard
  | pbcopyWrite
deriving DecidableEq

/-- The tuple of suffixes tested by img[0].lower().endswith((...)). -/
def allowedExts : List String := [".png", ".jpg", ".jpeg", ".bmp", ".gif"]

/-- img[0].lower().endswith((".png", ".jpg", ".jpeg", ".bmp", ".gif")),
on the character lists of the strings: the name is lowercased character by
character and then tested against each allowed suffix. -/
def hasAllowedExt (p : String) : Bool :=
  allowedExts.any fun e => e.data.isSuffixOf (p.data.map Char.toLower)

/-- Result of get_clipboard_image: the lines it printed and the value it
returned (none models the Python None). -/
structure GetClipResult where
  output : List Msg
  result : Option Image
deriving DecidableEq

/-- get_clipboard_image: grab the clipboard; on a file-path list consult
only the first entry and only when its lowercased name ends with an
allowed extension; any exception is caught, printed and turned into None. -/
def get_clipboard_image (grab : Except String GrabResult)
    (imageOpen : String → Except String Image) : GetClipResult :=
  match grab with
  | .error _ => ⟨[.clipboardError], none⟩
  | .ok .empty => ⟨[], none⟩
  | .ok (.image img) => ⟨[], some img⟩
  | .ok (.fileList []) => ⟨[], none⟩
  | .ok (.fileList (p :: _)) =>
      if hasAllowedExt p then
        match imageOpen p with
        | .ok img => ⟨[], some img⟩
        | .error _ => ⟨[.clipboardError], none⟩
      else ⟨[], none⟩

/-- The for loop of decode_qrcode: UTF-8 decode each payload in order,
collecting entries; none models the UnicodeDecodeError raised at the first
payload that is not valid UTF-8, which aborts the whole loop. -/
def decodeLoop (utf8 : List Nat → Option String) :
    List ZbarSymbol → Option (List DecodedSymbol)
  | [] => some []
  | o :: rest =>
    match utf8 o.data with
    | none => none
    | some s =>
      match decodeLoop utf8 rest with
      | none => none
      | some rs => some (⟨o.type, s⟩ :: rs)

/-- Result of decode_qrcode: printed lines plus the returned value
(none models the Python None). -/
structure DecodeResult where
  output : List Msg
  result : Option (List DecodedSymbol)
deriving DecidableEq

/-- decode_qrcode: run pyzbar.decode inside try; an empty detection list
prints the no-QR message and returns None; otherwise each payload is
decoded as UTF-8; any exception (from pyzbar or from a payload that is not
valid UTF-8) is caught, printed and turned into None. -/
def decode_qrcode (pyzbar : Image → Except String (List ZbarSymbol))
    (utf8 : List Nat → Option String) (image : Image) : DecodeResult :=
  match pyzbar image with
  | .error _ => ⟨[.decodeError], none⟩
  | .ok [] => ⟨[.noQrFound], none⟩
  | .ok (o :: rest) =>
    match decodeLoop utf8 (o :: rest) with
    | none => ⟨[.decodeError], none⟩
    | some rs => ⟨[], some rs⟩

/-- send_to_clipboard. The Windows branch mirrors the try/finally of the
source: OpenClipboard runs first, outside the try; EmptyClipboard and
SetClipboardData run inside the try; CloseClipboard is the finally block,
so it runs whether the body returns or raises, and the exception of the
body then propagates. The Darwin branch pipes PNG bytes to pbcopy, whose
communicate call returns regardless of the exit status of the utility.
Any other OS falls through the if chain with no action and no error.
The pair holds the trace of performed clipboard calls and the outcome. -/
def send_to_clipboard (os : OS) (api : WinApi) (_image : Image) :
    List ClipEvent × Except String Unit :=
  match os with
  | .windows =>
    if api.openOk then
      if api.emptyOk then
        if api.setOk then
          ([.openClipboard, .emptyClipboard, .setClipboardData,
            .closeClipboard], .ok ())
        else
          ([.openClipboard, .emptyClipboard, .closeClipboard],
           .error "SetClipboardData")
      else
        ([.openClipboard, .closeClipboard], .error "EmptyClipboard")
    else ([], .error "OpenClipboard")
  | .darwin => ([.pbcopyWrite], .ok ())
  | .other => ([], .ok ())

/-- Result of generate_and_copy_qr: printed lines plus the trace of
clipboard calls. -/
structure GenResult where
  output : List Msg
  clipEvents : List ClipEvent
deriving DecidableEq

/-- generate_and_copy_qr: build the QR object, print the text and the
ASCII grid, make the image, call send_to_clipboard, then print the success
line; an exception raised by the writer is caught by the surrounding try,
which prints the failure line instead. -/
def generate_and_copy_qr (makeImage : String → Image) (os : OS)
    (api : WinApi) (text : String) : GenResult :=
  let img := makeImage text
  let w := send_to_clipboard os api img
  match w.2 with
  | .ok _ => ⟨[.echoText text, .asciiQr, .qrSuccess], w.1⟩
  | .error _ => ⟨[.echoText text, .asciiQr, .qrFail], w.1⟩

/-- The environment of one invocation: the OS, the win32 flags and the
external library behaviors. -/
structure Env where
  os : OS
  api : WinApi
  grab : Except String GrabResult
  imageOpen : String → Except String Image
  pyzbar : Image → Except String (List ZbarSymbol)
  utf8 : List Nat → Option String
  makeImage : String → Image

/-- Observable result of one run of main: printed lines, the text handed
to pyperclip.copy (none when the copy never runs, leaving the clipboard
text unchanged), the image-clipboard call trace, and the exit code. -/
structure MainResult where
  output : List Msg
  clipboardText : Option String
  clipEvents : List ClipEvent
  exitCode : Nat
deriving DecidableEq

/-- The decode branch of main: read the clipboard; on None print the hint
and the usage block and return; otherwise decode; the results list is
consulted only when truthy (not None and not empty), in which case the
payloads are joined with newlines, printed, copied as text, and the count
confirmation is printed. -/
def mainDecode (env : Env) : MainResult :=
  let g := get_clipboard_image env.grab env.imageOpen
  match g.result with
  | none => ⟨g.output ++ [.noImageHint, .usageHelp], none, [], 0⟩
  | some img =>
    let d := decode_qrcode env.pyzbar env.utf8 img
    match d.result with
    | none => ⟨g.output ++ d.output, none, [], 0⟩
    | some [] => ⟨g.output ++ d.output, none, [], 0⟩
    | some (r :: rs) =>
      let content := String.intercalate "\n" ((r :: rs).map DecodedSymbol.data)
      ⟨g.output ++ d.output ++
         [.payload content, .copiedConfirm (r :: rs).length],
       some content, [], 0⟩

/-- main: with more than one entry in sys.argv, join the entries after the
program name with single spaces and run the encode path; otherwise run the
decode path. Both paths return normally, so the process exits with 0. -/
def main (argv : List String) (env : Env) : MainResult :=
  if argv.length > 1 then
    let content := String.intercalate " " argv.tail
    let g := generate_and_copy_qr env.makeImage env.os env.api content
    ⟨g.output, none, g.clipEvents, 0⟩
  else
    mainDecode env

/-!
Shared concrete instances and helper lemmas used by witnesses and proofs.
-/

/-- A concrete model of bytes.decode on the byte lists used in examples:
byte 65 decodes to A, byte 66 to B, the pair 104 105 to hi, and anything
else (such as the lone byte 255) is not valid UTF-8. -/
def utf8Model (bs : List Nat) : Option String :=
  if bs = [65] then some "A"
  else if bs = [66] then some "B"
  else if bs = [104, 105] then some "hi"
  else none

/-- The loop of decode_qrcode raises as soon as some symbol of the list
has a payload that the UTF-8 decoder rejects. -/
theorem decodeLoop_eq_none (utf8 : List Nat → Option String)
    (objs : List ZbarSymbol) (o : ZbarSymbol) (ho : o ∈ objs)
    (hbad : utf8 o.data = none) : decodeLoop utf8 objs = none := by
  induction objs with
  | nil => cases ho
  | cons a rest ih =>
    cases ho with
    | head => simp [decodeLoop, hbad]
    | tail _ htail =>
      cases hu : utf8 a.data with
      | none => simp [decodeLoop, hu]
      | some s => simp [decodeLoop, hu, ih htail]

/-- decode_qrcode on an image with a detected symbol whose payload is not
valid UTF-8: the whole call prints the error line and returns None. -/
theorem decode_qrcode_badUtf8 (pyzbar : Image → Except String (List ZbarSymbol))
    (utf8 : List Nat → Option String) (img : Image)
    (objs : List ZbarSymbol) (o : ZbarSymbol)
    (h : pyzbar img = .ok objs) (ho : o ∈ objs)
    (hbad : utf8 o.data = none) :
    decode_qrcode pyzbar utf8 img = ⟨[.decodeError], none⟩ := by
  have hnil : objs ≠ [] := by rintro rfl; cases ho
  obtain ⟨a, rest, rfl⟩ := List.exists_cons_of_ne_nil hnil
  simp [decode_qrcode, h, decodeLoop_eq_none utf8 _ o ho hbad]

/-!
C1
-/

/-- C1: round trip. The QR libraries are modelled abstractly: the
hypotheses state that pyzbar, run on the image the encoder produced for S,
detects exactly one symbol whose payload bytes UTF-8 decode back to S (the
capacity-ceiling assumption of the spec). Under them, running the decode
path on the encoded image returns exactly one decoded symbol whose payload
equals S. -/
theorem C1_roundtrip (env : Env) (S t : String) (bs : List Nat)
    (hlib : env.pyzbar (env.makeImage S) = .ok [⟨t, bs⟩])
    (hutf8 : env.utf8 bs = some S) :
    (decode_qrcode env.pyzbar env.utf8 (env.makeImage S)).result =
      some [⟨t, S⟩] := by
  simp [decode_qrcode, hlib, decodeLoop, hutf8]

/-- A concrete environment where the encoder maps any text to image 7 and
pyzbar reads back the bytes of hi from that image. -/
def envRoundtrip : Env :=
  ⟨.other, ⟨true, true, true⟩, .ok .empty, fun _ => .error "open",
   fun _ => .ok [⟨"QRCODE", [104, 105]⟩], utf8Model, fun _ => ⟨7⟩⟩

/-- C1 witness: the round trip at the concrete text hi. -/
theorem C1_roundtrip_witness :
    (decode_qrcode envRoundtrip.pyzbar envRoundtrip.utf8
        (envRoundtrip.makeImage "hi")).result = some [⟨"QRCODE", "hi"⟩] :=
  C1_roundtrip envRoundtrip "hi" "QRCODE" [104, 105] rfl (by decide)

/-!
C2
-/

/-- C2: on a file-path list the reader consults only the first entry: an
empty list yields None; a first entry whose lowercased name does not end
with an allowed extension yields None (in particular one ending in .txt);
a first entry with an allowed extension yields the image opened from that
path, whatever the rest of the list holds. -/
theorem C2_fileListFilter (imageOpen : String → Except String Image) :
    (get_clipboard_image (.ok (.fileList [])) imageOpen).result = none
    ∧ (∀ p rest, hasAllowedExt p = false →
        (get_clipboard_image (.ok (.fileList (p :: rest))) imageOpen).result
          = none)
    ∧ (∀ p rest img, hasAllowedExt p = true → imageOpen p = .ok img →
        (get_clipboard_image (.ok (.fileList (p :: rest))) imageOpen).result
          = some img)
    ∧ (get_clipboard_image (.ok (.fileList ["note.txt"])) imageOpen).result
        = none := by
  refine ⟨rfl, ?_, ?_, ?_⟩
  · intro p rest hp
    simp [get_clipboard_image, hp]
  · intro p rest img hp hopen
    simp [get_clipboard_image, hp, hopen]
  · have : hasAllowedExt "note.txt" = false := by decide
    simp [get_clipboard_image, this]

/-- C2 witness: a first entry named qr.PNG, under an opener that returns
image 3, yields image 3 (the extension check is case-insensitive). -/
theorem C2_fileListFilter_witness :
    (get_clipboard_image (.ok (.fileList ["qr.PNG", "b.txt"]))
        (fun _ => .ok ⟨3⟩)).result = some ⟨3⟩ :=
  (C2_fileListFilter (fun _ => .ok ⟨3⟩)).2.2.1 "qr.PNG" ["b.txt"] ⟨3⟩
    (by decide) rfl

/-!
C3
-/

/-- C3 counterexample: on a concrete image in which pyzbar detects zero
symbols, the value decode_qrcode returns is the distinct no-result value
None, and in particular it is not the empty sequence the claim states. -/
theorem C3_counterexample :
    (decode_qrcode (fun _ => .ok []) utf8Model ⟨0⟩).result = none
    ∧ (decode_qrcode (fun _ => .ok []) utf8Model ⟨0⟩).result ≠ some [] := by
  decide

/-- C3 amended: on an image in which pyzbar detects zero symbols,
decode_qrcode prints the no-QR message and returns the distinct no-result
value None (not an empty sequence); it does not raise, being total. -/
theorem C3_noSymbols (pyzbar : Image → Except String (List ZbarSymbol))
    (utf8 : List Nat → Option String) (img : Image)
    (h : pyzbar img = .ok []) :
    decode_qrcode pyzbar utf8 img = ⟨[.noQrFound], none⟩ := by
  simp [decode_qrcode, h]

/-- C3 witness: the amended statement at a concrete zero-symbol image. -/
theorem C3_noSymbols_witness :
    decode_qrcode (fun _ => .ok []) utf8Model ⟨1⟩ = ⟨[.noQrFound], none⟩ :=
  C3_noSymbols (fun _ => .ok []) utf8Model ⟨1⟩ rfl

/-!
C4
-/

/-- The concrete pyzbar behavior used for the C4 counterexample: two
detected symbols, the payload of the first being the valid byte 65 (A)
and the payload of the second being the invalid lone byte 255. -/
def pyzbarMixed : Image → Except String (List ZbarSymbol) :=
  fun _ => .ok [⟨"QRCODE", [65]⟩, ⟨"QRCODE", [255]⟩]

/-- C4 counterexample: with one symbol whose payload is valid UTF-8 (A)
next to one whose payload is not, decode_qrcode prints the error line and
returns None for the whole image, so no list containing the successfully
decoded symbol is returned: the valid symbol is not still decoded and
returned, refuting the second half of the claim at this concrete image. -/
theorem C4_counterexample :
    decode_qrcode pyzbarMixed utf8Model ⟨0⟩ = ⟨[.decodeError], none⟩
    ∧ ¬ ∃ rs, (decode_qrcode pyzbarMixed utf8Model ⟨0⟩).result = some rs
        ∧ (⟨"QRCODE", "A"⟩ : DecodedSymbol) ∈ rs := by
  have h : decode_qrcode pyzbarMixed utf8Model ⟨0⟩ =
      ⟨[.decodeError], none⟩ := by decide
  refine ⟨h, ?_⟩
  rintro ⟨rs, hrs, -⟩
  rw [h] at hrs
  exact Option.noConfusion hrs

/-- C4 amended: a detected symbol whose payload is not valid UTF-8 makes
decode_qrcode surface a decode failure, but for the whole image: the error
line is printed and the returned value is None, so symbols whose payloads
are valid UTF-8 are not returned either. -/
theorem C4_badPayload (pyzbar : Image → Except String (List ZbarSymbol))
    (utf8 : List Nat → Option String) (img : Image)
    (objs : List ZbarSymbol) (o : ZbarSymbol)
    (h : pyzbar img = .ok objs) (ho : o ∈ objs)
    (hbad : utf8 o.data = none) :
    decode_qrcode pyzbar utf8 img = ⟨[.decodeError], none⟩ :=
  decode_qrcode_badUtf8 pyzbar utf8 img objs o h ho hbad

/-- C4 witness: the amended statement at the concrete mixed image. -/
theorem C4_badPayload_witness :
    decode_qrcode pyzbarMixed utf8Model ⟨2⟩ = ⟨[.decodeError], none⟩ :=
  C4_badPayload pyzbarMixed utf8Model ⟨2⟩
    [⟨"QRCODE", [65]⟩, ⟨"QRCODE", [255]⟩] ⟨"QRCODE", [255]⟩ rfl
    (by decide) (by decide)

/-!
C5
-/

/-- C5 counterexample: on Windows with a raising SetClipboardData, the
writer call raises, so the clipboard-success line is not printed after it:
the surrounding try catches the exception and the failure line is printed
instead, refuting "always prints the success message regardless of the
writer outcome, including when the writer fails". -/
theorem C5_counterexample :
    Msg.qrSuccess ∉
      (generate_and_copy_qr (fun _ => ⟨0⟩) .windows ⟨true, true, false⟩
        "hi").output
    ∧ (generate_and_copy_qr (fun _ => ⟨0⟩) .windows ⟨true, true, false⟩
        "hi").output = [.echoText "hi", .asciiQr, .qrFail] := by
  decide

/-- C5 amended: the clipboard-success line is printed exactly when
send_to_clipboard returns without raising, and it is skipped for the
failure line exactly when the writer raises (a failing Windows clipboard
call). The remaining conjuncts single out the cases the original claim
got right: on Darwin the success line is printed whatever the pbcopy
utility did, and on a platform with no implemented write path the no-op
writer still leads to the success line. -/
theorem C5_successLine (makeImage : String → Image) (os : OS)
    (api : WinApi) (text : String) :
    ((generate_and_copy_qr makeImage os api text).output =
      [.echoText text, .asciiQr,
        match (send_to_clipboard os api (makeImage text)).2 with
        | .ok _ => .qrSuccess
        | .error _ => .qrFail])
    ∧ (generate_and_copy_qr makeImage .darwin api text).output =
        [.echoText text, .asciiQr, .qrSuccess]
    ∧ (generate_and_copy_qr makeImage .other api text).output =
        [.echoText text, .asciiQr, .qrSuccess] := by
  refine ⟨?_, rfl, rfl⟩
  unfold generate_and_copy_qr
  cases h : (send_to_clipboard os api (makeImage text)).2 <;> simp [h]

/-!
C6
-/

/-- C6: decode mode. With an Empty clipboard read, main prints the hint
and usage block, copies nothing, and exits 0. With an image but zero
detected symbols, main prints the no-QR line, copies nothing, and exits 0.
With decoded symbols, main prints the payloads joined by newlines in the
order the decode returned them, copies exactly that joined text, prints
the confirmation carrying the symbol count, and exits 0. -/
theorem C6_decodeMode (prog : String) (env : Env) :
    ((get_clipboard_image env.grab env.imageOpen).result = none →
      main [prog] env =
        ⟨(get_clipboard_image env.grab env.imageOpen).output ++
           [.noImageHint, .usageHelp], none, [], 0⟩)
    ∧ (∀ img, (get_clipboard_image env.grab env.imageOpen).result = some img →
        env.pyzbar img = .ok [] →
        main [prog] env =
          ⟨(get_clipboard_image env.grab env.imageOpen).output ++
             [.noQrFound], none, [], 0⟩)
    ∧ (∀ img r rs,
        (get_clipboard_image env.grab env.imageOpen).result = some img →
        (decode_qrcode env.pyzbar env.utf8 img).result = some (r :: rs) →
        main [prog] env =
          ⟨(get_clipboard_image env.grab env.imageOpen).output ++
             (decode_qrcode env.pyzbar env.utf8 img).output ++
             [.payload (String.intercalate "\n"
                 ((r :: rs).map DecodedSymbol.data)),
              .copiedConfirm (r :: rs).length],
           some (String.intercalate "\n" ((r :: rs).map DecodedSymbol.data)),
           [], 0⟩) := by
  refine ⟨?_, ?_, ?_⟩
  · intro hempty
    simp [main, mainDecode, hempty]
  · intro img himg hzero
    have hdec : decode_qrcode env.pyzbar env.utf8 img =
        ⟨[.noQrFound], none⟩ := by simp [decode_qrcode, hzero]
    simp [main, mainDecode, himg, hdec]
  · intro img r rs himg hdec
    simp [main, mainDecode, himg, hdec]

/-- A concrete environment where the clipboard holds image 5 and pyzbar
detects two symbols there, with payloads A and B in that order. -/
def envTwoSymbols : Env :=
  ⟨.other, ⟨true, true, true⟩, .ok (.image ⟨5⟩), fun _ => .error "open",
   fun _ => .ok [⟨"QRCODE", [65]⟩, ⟨"QRCODE", [66]⟩], utf8Model,
   fun _ => ⟨9⟩⟩

/-- C6 witness: two symbols with payloads A and B yield the printed and
copied text A newline B and a confirmation counting 2 symbols. -/
theorem C6_decodeMode_witness :
    main ["qr"] envTwoSymbols =
      ⟨[.payload "A\nB", .copiedConfirm 2], some "A\nB", [], 0⟩ := by
  have h := (C6_decodeMode "qr" envTwoSymbols).2.2 ⟨5⟩ ⟨"QRCODE", "A"⟩
    [⟨"QRCODE", "B"⟩] (by decide) (by decide)
  simpa using h

/-!
C7
-/

/-- C7: the dispatcher. With at least one argument after the program name,
main selects encode mode and the payload handed to the encoder is exactly
the arguments joined with single spaces; the arguments hello and world
join to the payload hello world; with zero arguments, decode mode runs. -/
theorem C7_dispatch (prog a : String) (args : List String) (env : Env) :
    (main (prog :: a :: args) env =
      ⟨(generate_and_copy_qr env.makeImage env.os env.api
          (String.intercalate " " (a :: args))).output, none,
       (generate_and_copy_qr env.makeImage env.os env.api
          (String.intercalate " " (a :: args))).clipEvents, 0⟩)
    ∧ String.intercalate " " ["hello", "world"] = "hello world"
    ∧ main [prog] env = mainDecode env := by
  refine ⟨?_, rfl, ?_⟩
  · simp [main]
  · simp [main]

/-!
C8
-/

/-- C8: get_clipboard_image never raises. A raising grabclipboard call is
caught, the error line is printed, and the result degrades to None; an
empty clipboard yields None with no error line; a raising Image.open on an
allowed first path entry is likewise caught, printed, and degrades to
None. The function is total, so the process continues in every case. -/
theorem C8_neverThrows (imageOpen : String → Except String Image)
    (e e2 p : String) (rest : List String)
    (hext : hasAllowedExt p = true) (hopen : imageOpen p = .error e2) :
    get_clipboard_image (.error e) imageOpen = ⟨[.clipboardError], none⟩
    ∧ get_clipboard_image (.ok .empty) imageOpen = ⟨[], none⟩
    ∧ get_clipboard_image (.ok (.fileList (p :: rest))) imageOpen =
        ⟨[.clipboardError], none⟩ := by
  refine ⟨rfl, rfl, ?_⟩
  simp [get_clipboard_image, hext, hopen]

/-- C8 witness: the three cases at concrete inputs, with an opener that
raises on every path. -/
theorem C8_neverThrows_witness :
    get_clipboard_image (.error "oops") (fun _ => .error "io") =
        ⟨[.clipboardError], none⟩
    ∧ get_clipboard_image (.ok .empty) (fun _ => .error "io") = ⟨[], none⟩
    ∧ get_clipboard_image (.ok (.fileList ["a.gif"])) (fun _ => .error "io")
        = ⟨[.clipboardError], none⟩ :=
  C8_neverThrows (fun _ => .error "io") "oops" "io" "a.gif" []
    (by decide) rfl

/-!
C9
-/

/-- C9: in the Windows writer, once OpenClipboard has succeeded, the
CloseClipboard call appears in the performed-call trace on every exit
path: when EmptyClipboard and SetClipboardData both return, and when
either of them raises. -/
theorem C9_handleReleased (api : WinApi) (img : Image)
    (hopen : api.openOk = true) :
    ClipEvent.closeClipboard ∈ (send_to_clipboard .windows api img).1 := by
  rcases api with ⟨o, em, st⟩
  cases em <;> cases st <;> simp_all [send_to_clipboard]

/-- C9 witness: the raising SetClipboardData path still closes the
clipboard handle. -/
theorem C9_handleReleased_witness :
    ClipEvent.closeClipboard ∈
      (send_to_clipboard .windows ⟨true, true, false⟩ ⟨0⟩).1 :=
  C9_handleReleased ⟨true, true, false⟩ ⟨0⟩ rfl

/-!
C10
-/

/-- C10: all-or-nothing surfacing in decode mode. When the clipboard read
yields an image on which some detected symbol has a payload that is not
valid UTF-8, decode_qrcode returns None for the whole image, and the run
of main prints only the reader output and the decode-error line — no
payload line and no count confirmation — and never calls the clipboard
text copy, leaving the clipboard text unchanged. -/
theorem C10_allOrNothing (prog : String) (env : Env) (img : Image)
    (objs : List ZbarSymbol) (o : ZbarSymbol)
    (himg : (get_clipboard_image env.grab env.imageOpen).result = some img)
    (h : env.pyzbar img = .ok objs) (ho : o ∈ objs)
    (hbad : env.utf8 o.data = none) :
    (decode_qrcode env.pyzbar env.utf8 img).result = none
    ∧ main [prog] env =
        ⟨(get_clipboard_image env.grab env.imageOpen).output ++
           [.decodeError], none, [], 0⟩ := by
  have hdec : decode_qrcode env.pyzbar env.utf8 img =
      ⟨[.decodeError], none⟩ :=
    decode_qrcode_badUtf8 env.pyzbar env.utf8 img objs o h ho hbad
  constructor
  · rw [hdec]
  · simp [main, mainDecode, himg, hdec]

/-- A concrete environment where the clipboard holds image 4 and pyzbar
detects there one valid symbol followed by one whose payload is not valid
UTF-8. -/
def envMixed : Env :=
  ⟨.other, ⟨true, true, true⟩, .ok (.image ⟨4⟩), fun _ => .error "open",
   pyzbarMixed, utf8Model, fun _ => ⟨9⟩⟩

/-- C10 witness: the all-or-nothing behavior at the concrete mixed
image. -/
theorem C10_allOrNothing_witness :
    (decode_qrcode envMixed.pyzbar envMixed.utf8 ⟨4⟩).result = none
    ∧ main ["qr"] envMixed = ⟨[.decodeError], none, [], 0⟩ := by
  have h := C10_allOrNothing "qr" envMixed ⟨4⟩
    [⟨"QRCODE", [65]⟩, ⟨"QRCODE", [255]⟩] ⟨"QRCODE", [255]⟩ rfl rfl
    (by decide) (by decide)
  simpa using h

end ClipQR
